import Mathlib

/-!
# Verification of the image-capture/crop/batch-dispatch core of CameraView

Shallow embedding of `src/CameraView.tsx`.  The React component state
`capturedImages : CapturedImage[]` is modelled as a `List CapturedImage`;
the state-updating callbacks become pure functions from store to store.
JavaScript numbers in the crop transform are modelled as rationals.
-/

/-- `CapturedImage` from CameraView.tsx: `{ id: string; url: string; selected: boolean }`. -/
structure CapturedImage where
  id : String
  url : String
  selected : Bool
deriving DecidableEq

/-- `capturePhoto`: appends `{ id, url: dataUrl, selected: true }` to `capturedImages`
(the id string is produced by `Date.now().toString() + Math.random().toString()`; the
generated value is a parameter here). -/
def capturePhoto (i u : String) (store : List CapturedImage) : List CapturedImage :=
  store ++ [{ id := i, url := u, selected := true }]

/-- `toggleImageSelection(id)`: `prev.map(img => img.id === id ? { ...img, selected: !img.selected } : img)`. -/
def toggleImageSelection (i : String) (store : List CapturedImage) : List CapturedImage :=
  store.map (fun img => if img.id = i then { img with selected := !img.selected } else img)

/-- The confirmed branch of `deleteImage(id)`: `prev.filter(img => img.id !== id)`. -/
def deleteImage (i : String) (store : List CapturedImage) : List CapturedImage :=
  store.filter (fun img => img.id ≠ i)

/-- The confirmed branch of `deleteSelectedImages`: `prev.filter(img => !img.selected)`. -/
def deleteSelectedImages (store : List CapturedImage) : List CapturedImage :=
  store.filter (fun img => !img.selected)

/-- `selectAll(select)`: `prev.map(img => ({ ...img, selected: select }))`. -/
def selectAll (b : Bool) (store : List CapturedImage) : List CapturedImage :=
  store.map (fun img => { img with selected := b })

/-- `handleCropConfirm(id, newUrl)`: `prev.map(img => img.id === id ? { ...img, url: newUrl } : img)`. -/
def handleCropConfirm (i newUrl : String) (store : List CapturedImage) : List CapturedImage :=
  store.map (fun img => if img.id = i then { img with url := newUrl } else img)

/-- Error kinds named by the spec for store operations. -/
inductive StoreError where
  | NotFound
deriving DecidableEq

/-- Spec-side definition of `toggleSelection(id)` following the spec's words:
"flips `selected`; no-op error if `id` absent (signals `NotFound`)".  Written only to
be compared with the source's `toggleImageSelection`, which has no error channel. -/
def toggleSelectionSpec (i : String) (store : List CapturedImage) :
    Except StoreError (List CapturedImage) :=
  if store.any (fun img => img.id = i) then
    .ok (store.map (fun img => if img.id = i then { img with selected := !img.selected } else img))
  else
    .error .NotFound

/-- Spec-side definition of `replaceBuffer(id, newBuffer)` following the spec's words:
"preserves `id` and `selected`, replaces only the buffer. Fails with `NotFound` if `id`
absent".  Written only to be compared with the source's `handleCropConfirm`. -/
def replaceBufferSpec (i newUrl : String) (store : List CapturedImage) :
    Except StoreError (List CapturedImage) :=
  if store.any (fun img => img.id = i) then
    .ok (store.map (fun img => if img.id = i then { img with url := newUrl } else img))
  else
    .error .NotFound

/-! ## Crop transform (`CropModal.handleConfirm`) -/

/-- A 2-D point in display coordinates (`startPos` / `currentPos` in CropModal). -/
structure Pt where
  x : ℚ
  y : ℚ
deriving DecidableEq

/-- The rectangle in native pixel space computed by `handleConfirm`. -/
structure NativeRect where
  x : ℚ
  y : ℚ
  w : ℚ
  h : ℚ
deriving DecidableEq

/-- Error kind named by the spec for a degenerate crop; the source signals it with
`alert("Selection too small. ...")` followed by an early return. -/
inductive CropError where
  | SelectionTooSmall
deriving DecidableEq

/-- `CropModal.handleConfirm`, the coordinate transform and minimum-size check:

    const scale = naturalWidth / clientWidth;
    const x = Math.min(startPos.x, currentPos.x) * scale;
    const y = Math.min(startPos.y, currentPos.y) * scale;
    const w = Math.abs(currentPos.x - startPos.x) * scale;
    const h = Math.abs(currentPos.y - startPos.y) * scale;
    if (w < 50 || h < 50) { alert(...); return; }

On success it yields the native rectangle handed to `ctx.drawImage`. -/
def handleConfirm (startPos currentPos : Pt) (naturalWidth clientWidth : ℚ) :
    Except CropError NativeRect :=
  let scale := naturalWidth / clientWidth
  let x := min startPos.x currentPos.x * scale
  let y := min startPos.y currentPos.y * scale
  let w := |currentPos.x - startPos.x| * scale
  let h := |currentPos.y - startPos.y| * scale
  if w < 50 ∨ h < 50 then .error .SelectionTooSmall
  else .ok { x := x, y := y, w := w, h := h }

/-- Spec-side definition of `computeCrop` following the spec's words: the native
rectangle is the display rectangle (`x = min` of the two x's, `y = min` of the two y's,
`w`, `h` the absolute differences) multiplied on both axes and both dimensions by the
single uniform scale factor `nativeSize.w / displaySize.w`.  Written only to be compared
with the source's `handleConfirm`. -/
def computeCropSpec (startPos currentPos : Pt) (nativeW displayW : ℚ) : NativeRect :=
  let scale := nativeW / displayW
  { x := min startPos.x currentPos.x * scale
    y := min startPos.y currentPos.y * scale
    w := |currentPos.x - startPos.x| * scale
    h := |currentPos.y - startPos.y| * scale }

/-- The crop-confirm flow of the modal: `handleConfirm` either early-returns with the
alert (store untouched) or calls `onConfirm(image.id, canvas.toDataURL(...))`, which is
`handleCropConfirm` on the store. -/
def cropConfirmFlow (startPos currentPos : Pt) (naturalWidth clientWidth : ℚ)
    (imgId newUrl : String) (store : List CapturedImage) :
    List CapturedImage × Option CropError :=
  match handleConfirm startPos currentPos naturalWidth clientWidth with
  | .error e => (store, some e)
  | .ok _ => (handleCropConfirm imgId newUrl store, none)

/-! ## Batch dispatch (`handleBatchAnalyze`) -/

/-- Observable result of one `handleBatchAnalyze` call.  `noop` is the early
`if (imagesToProcess.length === 0) return;` (nothing reported, no outcomes);
`completed results` is `onAnalysisComplete(results)` after `Promise.all` fulfils;
`failed` is the `catch` branch (`setError(...)`, no report delivered). -/
inductive DispatchOutcome (α : Type) where
  | noop
  | completed (results : List α)
  | failed
deriving DecidableEq

/-- The images chosen by `handleBatchAnalyze(analyzeAll)`:
`analyzeAll ? capturedImages : capturedImages.filter(img => img.selected)`. -/
def imagesToProcess (analyzeAll : Bool) (store : List CapturedImage) : List CapturedImage :=
  if analyzeAll then store else store.filter (fun img => img.selected)

/-- `handleBatchAnalyze`:

    const imagesToProcess = analyzeAll ? capturedImages : capturedImages.filter(...);
    if (imagesToProcess.length === 0) return;
    try {
      const promises = imagesToProcess.map(img => analyzeImageWithPi(img.url));
      const results = await Promise.all(promises);
      onAnalysisComplete(results);
    } catch (err) { setError(...); }

`analyze` models `analyzeImageWithPi`, each call settling with a value (`.ok`) or a
rejection (`.error`).  `Promise.all` fulfils with the values in request order when every
promise fulfils, and rejects when any promise rejects.  The second component is the list
of urls `analyze` was invoked on (empty exactly when `analyze` is never called). -/
def handleBatchAnalyze {α : Type} (analyzeAll : Bool) (store : List CapturedImage)
    (analyze : String → Except String α) : DispatchOutcome α × List String :=
  let imgs := imagesToProcess analyzeAll store
  if imgs.length = 0 then (.noop, [])
  else
    let promises := imgs.map (fun img => analyze img.url)
    if promises.all (fun r => r.isOk) then
      (.completed (promises.filterMap (fun r => r.toOption)), imgs.map (fun img => img.url))
    else
      (.failed, imgs.map (fun img => img.url))

/-! ## Operation sequences on the store (for the ImageStore invariant) -/

/-- One user-level store operation: a capture (`capturePhoto`, with the generated id and
data url as parameters) or a confirmed single delete (`deleteImage`). -/
inductive StoreOp where
  | add (i u : String)
  | remove (i : String)
deriving DecidableEq

/-- Apply one operation to the store. -/
def applyOp (store : List CapturedImage) : StoreOp → List CapturedImage
  | .add i u => capturePhoto i u store
  | .remove i => deleteImage i store

/-- Run a sequence of operations starting from a given store. -/
def runOpsFrom (store : List CapturedImage) (ops : List StoreOp) : List CapturedImage :=
  ops.foldl applyOp store

/-- Run a sequence of operations starting from the empty store. -/
def runOps (ops : List StoreOp) : List CapturedImage :=
  runOpsFrom [] ops

/-- Does the operation sequence contain a `remove` of this id? -/
def removesId (ops : List StoreOp) (i : String) : Bool :=
  ops.any (fun op => match op with
    | .remove j => j = i
    | .add _ _ => false)

/-- The ids introduced by the `add` operations of a sequence, in order. -/
def addIds : List StoreOp → List String
  | [] => []
  | .add i _ :: rest => i :: addIds rest
  | .remove _ :: rest => addIds rest

/-- The entries an operation sequence is expected to leave in the store: each added
entry survives unless a later operation removes its id, and survivors keep insertion
order. -/
def survivors : List StoreOp → List CapturedImage
  | [] => []
  | .add i u :: rest =>
      if removesId rest i then survivors rest
      else { id := i, url := u, selected := true } :: survivors rest
  | .remove _ :: rest => survivors rest

/-! ## Camera feed lifecycle (`startCamera` / `stopCamera` / the `useEffect`)

The component's effect is

    useEffect(() => {
      if (viewMode === 'camera') { startCamera(); } else { stopCamera(); }
      return () => stopCamera();
    }, [viewMode]);

React semantics: the effect body and the cleanup it returns are closures created at the
render in which the effect runs, so the `stream` state value they read is the one from
that render.  The effect re-runs only when `viewMode` changes (running the previously
registered cleanup first); `setStream` re-renders but does not re-run the effect.
`startCamera` resolves asynchronously (`getUserMedia`) and then calls `setStream`. -/

/-- Component lifecycle state: current `viewMode` (`true` = camera), current `stream`
state, the registered effect cleanup (carrying the `stream` value its closure captured),
and the histories of acquired and released media streams. -/
structure CamState where
  cameraMode : Bool
  stream : Option Nat
  cleanupStream : Option (Option Nat)
  acquired : List Nat
  released : List Nat
deriving DecidableEq

/-- `stopCamera` as run by a closure that captured `stream = captured`:
`if (stream) { stream.getTracks().forEach(t => t.stop()); setStream(null); }`. -/
def stopCameraWith (captured : Option Nat) (st : CamState) : CamState :=
  match captured with
  | some s => { st with released := st.released ++ [s], stream := none }
  | none => st

/-- Run the currently registered effect cleanup (on dependency change or unmount). -/
def runCleanup (st : CamState) : CamState :=
  match st.cleanupStream with
  | some c => stopCameraWith c st
  | none => st

/-- Events driving the component: initial mount (in camera mode), asynchronous
resolution of `getUserMedia` with a stream (recorded as acquired), a `viewMode` change,
and unmount of the owning screen. -/
inductive CamEvent where
  | mount
  | streamResolved (s : Nat)
  | setViewMode (camera : Bool)
  | unmount
deriving DecidableEq

/-- One step of the component lifecycle.  On `mount` the effect runs: `startCamera()` is
initiated (its resolution arrives later as `streamResolved`) and the cleanup closure is
registered capturing the render's `stream`.  On `streamResolved s` the pending
`setStream(mediaStream)` lands; the effect does not re-run.  On a `viewMode` change the
registered cleanup runs with its captured `stream`, then the new effect body runs — in
review mode that body is `stopCamera()` reading the new render's `stream` — and a new
cleanup is registered capturing the new render's `stream`.  On `unmount` only the
registered cleanup runs. -/
def camStep (st : CamState) : CamEvent → CamState
  | .mount =>
      { st with cleanupStream := some st.stream }
  | .streamResolved s =>
      { st with stream := some s, acquired := st.acquired ++ [s] }
  | .setViewMode b =>
      if b = st.cameraMode then st
      else
        let captured := st.stream
        let st1 := runCleanup st
        let st2 := if b then st1 else stopCameraWith captured st1
        { st2 with cameraMode := b, cleanupStream := some captured }
  | .unmount => runCleanup st

/-- Initial component state: camera mode, no stream, no registered cleanup. -/
def camInit : CamState :=
  { cameraMode := true, stream := none, cleanupStream := none
    acquired := [], released := [] }

/-- Run a sequence of lifecycle events from the initial state. -/
def camRun (events : List CamEvent) : CamState :=
  events.foldl camStep camInit

/-! ## Selection operations: shape preservation and involution -/

theorem toggleImageSelection_toggleImageSelection (i : String) (s : List CapturedImage) :
    toggleImageSelection i (toggleImageSelection i s) = s := by
  induction s with
  | nil => rfl
  | cons hd tl ih =>
    simp only [toggleImageSelection, List.map_cons, List.map_map] at *
    by_cases hid : hd.id = i
    · simp [hid, Bool.not_not]
      exact ⟨by rw [← hid], ih⟩
    · simp [hid]
      exact ih

/-- C10: `toggleImageSelection` and `selectAll` preserve the number of entries, their
order, and every entry's `id` and `url` (buffer); both are maps that rewrite only the
`selected` flag. -/
theorem selection_ops_modify_selected_only (i : String) (b : Bool) (s : List CapturedImage) :
    (toggleImageSelection i s).length = s.length ∧
    (selectAll b s).length = s.length ∧
    (toggleImageSelection i s).map (fun img => (img.id, img.url)) =
      s.map (fun img => (img.id, img.url)) ∧
    (selectAll b s).map (fun img => (img.id, img.url)) =
      s.map (fun img => (img.id, img.url)) := by
  refine ⟨by simp [toggleImageSelection], by simp [selectAll], ?_, ?_⟩
  · rw [toggleImageSelection, List.map_map]
    refine List.map_congr_left ?_
    intro img _
    by_cases hid : img.id = i <;> simp [hid]
  · rw [selectAll, List.map_map]
    rfl

/-- C8: for every store and id present in it, applying `toggleImageSelection` twice to
that id restores the entry's `selected` flag (the operation is an involution; in the
source it holds for absent ids as well). -/
theorem toggleImageSelection_involution (i : String) (s : List CapturedImage)
    (_h : ∃ img ∈ s, img.id = i) :
    toggleImageSelection i (toggleImageSelection i s) = s :=
  toggleImageSelection_toggleImageSelection i s

/-- Witness for C8 at a concrete one-element store containing the toggled id. -/
theorem toggleImageSelection_involution_witness :
    (∃ img ∈ [CapturedImage.mk "i1" "u1" true], img.id = "i1") ∧
    toggleImageSelection "i1" (toggleImageSelection "i1" [CapturedImage.mk "i1" "u1" true]) =
      [CapturedImage.mk "i1" "u1" true] :=
  ⟨⟨CapturedImage.mk "i1" "u1" true, by simp, rfl⟩,
   toggleImageSelection_involution "i1" _ ⟨CapturedImage.mk "i1" "u1" true, by simp, rfl⟩⟩

/-! ## Absent ids: silent no-ops versus the spec's `NotFound` -/

/-- C6 counterexample: on a store that has no entry with the requested id,
`toggleImageSelection` returns the store unchanged and signals nothing — the source's
`prev.map(...)` has no error path at all — whereas the claim demands a `NotFound`
signal, as the spec-side `toggleSelectionSpec` produces. -/
theorem toggleImageSelection_absent_signals_nothing :
    toggleImageSelection "missing" [CapturedImage.mk "i1" "u1" true] =
      [CapturedImage.mk "i1" "u1" true] ∧
    toggleSelectionSpec "missing" [CapturedImage.mk "i1" "u1" true] =
      .error StoreError.NotFound := by
  exact ⟨rfl, rfl⟩

/-- C6 (amended): `toggleImageSelection(id)` flips the `selected` flag of every entry
whose id matches (in particular of the unique matching entry when ids are unique) and
leaves non-matching entries unchanged; when no entry has the id it is a silent no-op
returning the store unchanged, with no `NotFound` error signalled. -/
theorem toggleImageSelection_amended (i : String) (s : List CapturedImage) :
    (∀ k : Nat, ∀ img, s[k]? = some img →
      (toggleImageSelection i s)[k]? =
        some (if img.id = i then { img with selected := !img.selected } else img)) ∧
    ((∀ img ∈ s, img.id ≠ i) → toggleImageSelection i s = s) := by
  constructor
  · intro k img hk
    simp [toggleImageSelection, List.getElem?_map, hk]
  · intro h
    rw [toggleImageSelection]
    conv_rhs => rw [← List.map_id s]
    refine List.map_congr_left ?_
    intro img hmem
    simp [h img hmem]

/-- Witness for C6 (amended): a present id is flipped at its position; an absent id
leaves the store unchanged. -/
theorem toggleImageSelection_amended_witness :
    (toggleImageSelection "i1" [CapturedImage.mk "i1" "u1" true])[0]? =
      some (CapturedImage.mk "i1" "u1" false) ∧
    toggleImageSelection "zz" [CapturedImage.mk "i1" "u1" true] =
      [CapturedImage.mk "i1" "u1" true] := by
  constructor
  · have h := (toggleImageSelection_amended "i1" [CapturedImage.mk "i1" "u1" true]).1 0
      (CapturedImage.mk "i1" "u1" true) rfl
    simpa using h
  · exact (toggleImageSelection_amended "zz" [CapturedImage.mk "i1" "u1" true]).2 (by decide)

/-- C7 counterexample: on a store that has no entry with the requested id,
`handleCropConfirm` returns the store unchanged and signals nothing — the source's
`prev.map(...)` has no error path — whereas the claim demands failure with `NotFound`,
as the spec-side `replaceBufferSpec` produces. -/
theorem handleCropConfirm_absent_signals_nothing :
    handleCropConfirm "missing" "new.jpg" [CapturedImage.mk "i1" "u1" true] =
      [CapturedImage.mk "i1" "u1" true] ∧
    replaceBufferSpec "missing" "new.jpg" [CapturedImage.mk "i1" "u1" true] =
      .error StoreError.NotFound := by
  exact ⟨rfl, rfl⟩

/-- C7 (amended): `handleCropConfirm(id, newUrl)` replaces only the `url` (buffer) of
entries whose id matches, preserving their `id` and `selected` flag, and leaves every
other entry unchanged; when the id is absent it is a silent no-op returning the store
unchanged, with no `NotFound` error signalled. -/
theorem handleCropConfirm_amended (i newUrl : String) (s : List CapturedImage) :
    (∀ k : Nat, ∀ img, s[k]? = some img →
      (handleCropConfirm i newUrl s)[k]? =
        some (if img.id = i then { img with url := newUrl } else img)) ∧
    ((∀ img ∈ s, img.id ≠ i) → handleCropConfirm i newUrl s = s) := by
  constructor
  · intro k img hk
    simp [handleCropConfirm, List.getElem?_map, hk]
  · intro h
    rw [handleCropConfirm]
    conv_rhs => rw [← List.map_id s]
    refine List.map_congr_left ?_
    intro img hmem
    simp [h img hmem]

/-- Witness for C7 (amended): a present id gets its url replaced, id and selected flag
kept; an absent id leaves the store unchanged. -/
theorem handleCropConfirm_amended_witness :
    (handleCropConfirm "i1" "new.jpg" [CapturedImage.mk "i1" "u1" false])[0]? =
      some (CapturedImage.mk "i1" "new.jpg" false) ∧
    handleCropConfirm "zz" "new.jpg" [CapturedImage.mk "i1" "u1" false] =
      [CapturedImage.mk "i1" "u1" false] := by
  constructor
  · have h := (handleCropConfirm_amended "i1" "new.jpg" [CapturedImage.mk "i1" "u1" false]).1 0
      (CapturedImage.mk "i1" "u1" false) rfl
    simpa using h
  · exact (handleCropConfirm_amended "zz" "new.jpg" [CapturedImage.mk "i1" "u1" false]).2
      (by decide)

/-! ## ImageStore invariant under add/remove sequences -/

theorem removesId_add (j u i : String) (rest : List StoreOp) :
    removesId (.add j u :: rest) i = removesId rest i := by
  simp [removesId]

theorem removesId_remove (j i : String) (rest : List StoreOp) :
    removesId (.remove j :: rest) i = (decide (j = i) || removesId rest i) := by
  simp [removesId]

theorem runOpsFrom_eq_filter_append_survivors (ops : List StoreOp) :
    ∀ s : List CapturedImage,
      runOpsFrom s ops =
        s.filter (fun img => !removesId ops img.id) ++ survivors ops := by
  induction ops with
  | nil =>
    intro s
    simp [runOpsFrom, survivors, removesId]
  | cons op rest ih =>
    intro s
    cases op with
    | add i u =>
      have h1 : runOpsFrom s (.add i u :: rest) = runOpsFrom (capturePhoto i u s) rest := rfl
      rw [h1, ih, capturePhoto, List.filter_append]
      by_cases hrem : removesId rest i
      · simp only [survivors, hrem, if_true, List.filter_cons, List.filter_nil]
        simp [removesId_add, hrem]
      · simp only [survivors, hrem, if_false, List.filter_cons, List.filter_nil]
        simp [removesId_add, hrem]
    | remove j =>
      have h1 : runOpsFrom s (.remove j :: rest) = runOpsFrom (deleteImage j s) rest := rfl
      rw [h1, ih, deleteImage, List.filter_filter]
      congr 1
      refine List.filter_congr ?_
      intro img _
      by_cases hj : j = img.id
      · simp [removesId_remove, hj]
      · have hj2 : img.id ≠ j := fun hsymm => hj hsymm.symm
        simp [removesId_remove, hj, hj2]

theorem survivors_ids_sublist (ops : List StoreOp) :
    ((survivors ops).map (fun img => img.id)).Sublist (addIds ops) := by
  induction ops with
  | nil => simp [survivors, addIds]
  | cons op rest ih =>
    cases op with
    | add i u =>
      by_cases hrem : removesId rest i
      · simp only [survivors, hrem, if_true, addIds]
        exact ih.cons i
      · simp only [survivors, hrem, if_false, addIds, List.map_cons]
        exact ih.cons₂ i
    | remove j =>
      simpa [survivors, addIds] using ih

/-- C5: starting from the empty store, for every sequence of `capturePhoto` (add) and
`deleteImage` (remove) operations whose generated ids are pairwise distinct (the
freshness the source's `Date.now().toString() + Math.random().toString()` generator is
relied on to provide), the store never contains two entries with the same id, and the
resulting store is exactly the added entries not yet removed, in insertion order. -/
theorem runOps_store_invariant (ops : List StoreOp) (h : (addIds ops).Nodup) :
    ((runOps ops).map (fun img => img.id)).Nodup ∧ runOps ops = survivors ops := by
  have heq : runOps ops = survivors ops := by
    rw [runOps, runOpsFrom_eq_filter_append_survivors]
    simp
  refine ⟨?_, heq⟩
  rw [heq]
  exact (survivors_ids_sublist ops).nodup h

/-- Witness for C5 at a concrete operation sequence with distinct generated ids:
add a, add b, remove a, add c leaves exactly b then c. -/
theorem runOps_store_invariant_witness :
    (addIds [StoreOp.add "a" "u1", .add "b" "u2", .remove "a", .add "c" "u3"]).Nodup ∧
    (((runOps [StoreOp.add "a" "u1", .add "b" "u2", .remove "a", .add "c" "u3"]).map
        (fun img => img.id)).Nodup ∧
      runOps [StoreOp.add "a" "u1", .add "b" "u2", .remove "a", .add "c" "u3"] =
        survivors [StoreOp.add "a" "u1", .add "b" "u2", .remove "a", .add "c" "u3"]) :=
  ⟨by decide, runOps_store_invariant _ (by decide)⟩

/-! ## Crop transform: uniform scale and minimum-size policy -/

/-- C2: for every crop request that passes the minimum-size check, the native rectangle
produced by `handleConfirm` is exactly the spec's: the display rectangle (x and y the
minima of the two corner coordinates, w and h the absolute differences) multiplied on
both axes and both dimensions by the single uniform scale factor
`nativeSize.w / displaySize.w` (`naturalWidth / clientWidth` in the source). -/
theorem handleConfirm_ok_eq_computeCropSpec (startPos currentPos : Pt)
    (naturalWidth clientWidth : ℚ) (r : NativeRect)
    (h : handleConfirm startPos currentPos naturalWidth clientWidth = .ok r) :
    r = computeCropSpec startPos currentPos naturalWidth clientWidth := by
  rw [handleConfirm] at h
  by_cases hc : |currentPos.x - startPos.x| * (naturalWidth / clientWidth) < 50 ∨
      |currentPos.y - startPos.y| * (naturalWidth / clientWidth) < 50
  · simp only [hc, if_true] at h
    exact absurd h (by simp)
  · simp only [hc, if_false, Except.ok.injEq] at h
    rw [← h]
    rfl

/-- Witness for C2: a 30×40 display selection at scale 2 maps to the native
rectangle (0, 0, 60, 80). -/
theorem handleConfirm_ok_eq_computeCropSpec_witness :
    handleConfirm ⟨0, 0⟩ ⟨30, 40⟩ 200 100 = .ok ⟨0, 0, 60, 80⟩ ∧
    (⟨0, 0, 60, 80⟩ : NativeRect) = computeCropSpec ⟨0, 0⟩ ⟨30, 40⟩ 200 100 := by
  have hok : handleConfirm ⟨0, 0⟩ ⟨30, 40⟩ 200 100 = .ok ⟨0, 0, 60, 80⟩ := by
    rw [handleConfirm]
    norm_num
  exact ⟨hok, handleConfirm_ok_eq_computeCropSpec ⟨0, 0⟩ ⟨30, 40⟩ 200 100 ⟨0, 0, 60, 80⟩ hok⟩

theorem handleConfirm_too_small (startPos currentPos : Pt)
    (naturalWidth clientWidth : ℚ)
    (h : |currentPos.x - startPos.x| * (naturalWidth / clientWidth) < 50 ∨
         |currentPos.y - startPos.y| * (naturalWidth / clientWidth) < 50) :
    handleConfirm startPos currentPos naturalWidth clientWidth =
      .error CropError.SelectionTooSmall := by
  rw [handleConfirm]
  simp only [h, if_true]

/-- C3: for every crop request whose resulting native width or native height is below
50, the crop-confirm flow fails with `SelectionTooSmall` (the alert / early return) and
leaves the image store unchanged: `onConfirm`, and hence `handleCropConfirm`, is never
reached, so no buffer is replaced. -/
theorem cropConfirmFlow_too_small (startPos currentPos : Pt)
    (naturalWidth clientWidth : ℚ) (imgId newUrl : String) (store : List CapturedImage)
    (h : |currentPos.x - startPos.x| * (naturalWidth / clientWidth) < 50 ∨
         |currentPos.y - startPos.y| * (naturalWidth / clientWidth) < 50) :
    cropConfirmFlow startPos currentPos naturalWidth clientWidth imgId newUrl store =
      (store, some CropError.SelectionTooSmall) := by
  have he := handleConfirm_too_small startPos currentPos naturalWidth clientWidth h
  unfold cropConfirmFlow
  rw [he]

/-- Witness for C3: a 10×10 display selection at scale 1 (native 10×10, both below 50)
fails with `SelectionTooSmall` and leaves the one-image store untouched. -/
theorem cropConfirmFlow_too_small_witness :
    (|(10 : ℚ) - 0| * ((100 : ℚ) / 100) < 50 ∨ |(10 : ℚ) - 0| * ((100 : ℚ) / 100) < 50) ∧
    cropConfirmFlow ⟨0, 0⟩ ⟨10, 10⟩ 100 100 "i1" "new.jpg" [CapturedImage.mk "i1" "u1" true] =
      ([CapturedImage.mk "i1" "u1" true], some CropError.SelectionTooSmall) := by
  have hsmall : |(10 : ℚ) - 0| * ((100 : ℚ) / 100) < 50 ∨
      |(10 : ℚ) - 0| * ((100 : ℚ) / 100) < 50 := by norm_num
  exact ⟨hsmall,
    cropConfirmFlow_too_small ⟨0, 0⟩ ⟨10, 10⟩ 100 100 "i1" "new.jpg"
      [CapturedImage.mk "i1" "u1" true] hsmall⟩

/-! ## Batch dispatch: empty no-op and Promise.all fail-fast behaviour -/

/-- C4: when the sequence of images handed to the dispatcher is empty,
`handleBatchAnalyze` returns immediately at the `if (imagesToProcess.length === 0)`
guard: nothing is reported (zero outcomes) and `analyze` is invoked on no image (its
invocation log, the second component, is empty). -/
theorem handleBatchAnalyze_empty {α : Type} (analyzeAll : Bool)
    (store : List CapturedImage) (analyze : String → Except String α)
    (h : imagesToProcess analyzeAll store = []) :
    handleBatchAnalyze analyzeAll store analyze = (.noop, []) := by
  unfold handleBatchAnalyze
  rw [h]
  rfl

/-- Witness for C4: an empty store selects no image and the dispatcher no-ops without
any analyzer invocation. -/
theorem handleBatchAnalyze_empty_witness :
    imagesToProcess false ([] : List CapturedImage) = [] ∧
    handleBatchAnalyze false ([] : List CapturedImage)
      (fun _ => (.error "offline" : Except String Nat)) = (.noop, []) :=
  ⟨rfl, handleBatchAnalyze_empty false [] (fun _ => .error "offline") rfl⟩

/-- Concrete analyzer used at the C1 counterexample: fulfils on url "a.jpg", rejects
on every other url. -/
def analyzeMixed : String → Except String Nat :=
  fun u => if u = "a.jpg" then .ok 1 else .error "fail"

/-- C1 counterexample: dispatching the two-image batch [A, B] where `analyze` succeeds
on A and fails on B does not produce a two-outcome report with `batchFailed = false`;
the source awaits `Promise.all`, which rejects as soon as any promise rejects, so
control lands in the `catch` branch (`.failed`, the batch-level connection error) and
`onAnalysisComplete` is never called — A's successful result is not reported.  Both
images were dispatched (the invocation log holds both urls), so the loss is purely in
the aggregation. -/
theorem handleBatchAnalyze_mixed_fails :
    handleBatchAnalyze false
      [CapturedImage.mk "A" "a.jpg" true, CapturedImage.mk "B" "b.jpg" true]
      analyzeMixed = (.failed, ["a.jpg", "b.jpg"]) := by
  rfl

theorem all_isOk_filterMap_toOption_length {α : Type} (f : CapturedImage → Except String α) :
    ∀ l : List CapturedImage, (∀ img ∈ l, (f img).isOk) →
      (l.filterMap (fun img => (f img).toOption)).length = l.length := by
  intro l
  induction l with
  | nil => intro _; rfl
  | cons hd tl ih =>
    intro h
    have hhd := h hd (by simp)
    have htl := ih (fun img hm => h img (by simp [hm]))
    cases hf : f hd with
    | ok v =>
      have hopt : (f hd).toOption = some v := by rw [hf]; rfl
      rw [List.filterMap_cons, hopt, List.length_cons, htl]
      rfl
    | error e =>
      rw [hf] at hhd
      exact absurd hhd (by simp [Except.isOk, Except.toBool])

/-- C1 (amended): the dispatcher is fail-fast, not all-settled.  For a non-empty batch:
if every image's analysis fulfils, `onAnalysisComplete` receives exactly one result per
dispatched image, in request order; but if any image's analysis rejects, `Promise.all`
rejects and the whole dispatch takes the `catch` branch — no report is produced, the
successful siblings' results are dropped, and the failure is surfaced as the batch-level
connection error rather than as a per-image failure.  In both cases `analyze` is
invoked once per image of the batch. -/
theorem handleBatchAnalyze_promiseAll {α : Type} (analyzeAll : Bool)
    (store : List CapturedImage) (analyze : String → Except String α)
    (hne : imagesToProcess analyzeAll store ≠ []) :
    ((∀ img ∈ imagesToProcess analyzeAll store, (analyze img.url).isOk) →
      (handleBatchAnalyze analyzeAll store analyze).1 =
        .completed ((imagesToProcess analyzeAll store).filterMap
          (fun img => (analyze img.url).toOption)) ∧
      ((imagesToProcess analyzeAll store).filterMap
          (fun img => (analyze img.url).toOption)).length =
        (imagesToProcess analyzeAll store).length) ∧
    ((∃ img ∈ imagesToProcess analyzeAll store, ¬(analyze img.url).isOk) →
      (handleBatchAnalyze analyzeAll store analyze).1 = .failed) ∧
    (handleBatchAnalyze analyzeAll store analyze).2 =
      (imagesToProcess analyzeAll store).map (fun img => img.url) := by
  have hlen : ¬(imagesToProcess analyzeAll store).length = 0 := by
    simpa [List.length_eq_zero] using hne
  refine ⟨?_, ?_, ?_⟩
  · intro hall
    have hallb : ((imagesToProcess analyzeAll store).map
        (fun img => analyze img.url)).all (fun r => r.isOk) = true := by
      rw [List.all_eq_true]
      intro r hr
      obtain ⟨img, hm, rfl⟩ := List.mem_map.mp hr
      exact hall img hm
    constructor
    · unfold handleBatchAnalyze
      simp only [hlen, if_false, hallb, if_true, List.filterMap_map]
      rfl
    · exact all_isOk_filterMap_toOption_length _ _ hall
  · intro ⟨img, hm, hbad⟩
    have hallb : ((imagesToProcess analyzeAll store).map
        (fun img => analyze img.url)).all (fun r => r.isOk) = false := by
      rw [Bool.eq_false_iff, Ne, List.all_eq_true]
      intro hcontra
      exact hbad (hcontra ((fun img => analyze img.url) img)
        (List.mem_map_of_mem _ hm))
    unfold handleBatchAnalyze
    simp only [hlen, if_false, hallb]
    rfl
  · unfold handleBatchAnalyze
    simp only [hlen, if_false]
    by_cases hb : ((imagesToProcess analyzeAll store).map
        (fun img => analyze img.url)).all (fun r => r.isOk)
    · simp [hb]
    · simp [hb]

/-- Witness for C1 (amended) at a concrete one-image batch whose analysis succeeds:
the report carries exactly its one result, and the invocation log is its url. -/
theorem handleBatchAnalyze_promiseAll_witness :
    (imagesToProcess false [CapturedImage.mk "A" "a.jpg" true] ≠ []) ∧
    (∀ img ∈ imagesToProcess false [CapturedImage.mk "A" "a.jpg" true],
      (analyzeMixed img.url).isOk) ∧
    (handleBatchAnalyze false [CapturedImage.mk "A" "a.jpg" true] analyzeMixed).1 =
      .completed ((imagesToProcess false [CapturedImage.mk "A" "a.jpg" true]).filterMap
        (fun img => (analyzeMixed img.url).toOption)) ∧
    (handleBatchAnalyze false [CapturedImage.mk "A" "a.jpg" true] analyzeMixed).2 =
      (imagesToProcess false [CapturedImage.mk "A" "a.jpg" true]).map
        (fun img => img.url) := by
  have hne : imagesToProcess false [CapturedImage.mk "A" "a.jpg" true] ≠ [] := by
    simp [imagesToProcess]
  have hall : ∀ img ∈ imagesToProcess false [CapturedImage.mk "A" "a.jpg" true],
      (analyzeMixed img.url).isOk := by
    decide
  have h := handleBatchAnalyze_promiseAll false [CapturedImage.mk "A" "a.jpg" true]
    analyzeMixed hne
  exact ⟨hne, hall, (h.1 hall).1, h.2.2⟩

/-! ## Camera feed release on exit paths -/

/-- C9, evaluated at the failing input: mount in camera mode, let `getUserMedia`
resolve with a stream, then unmount the owning screen.  The effect (deps `[viewMode]`)
ran only at mount, so the registered cleanup is the closure from the initial render,
which captured `stream = null`; at unmount `stopCamera`'s `if (stream)` guard sees that
stale `null` and stops no tracks.  The final state has the stream acquired but never
released — the feed is left held after the owning screen is closed, contradicting the
guaranteed-release claim on the owner-teardown exit path. -/
theorem camRun_unmount_leaks_stream :
    camRun [.mount, .streamResolved 7, .unmount] =
      { cameraMode := true, stream := some 7, cleanupStream := some none,
        acquired := [7], released := [] } := by
  rfl

/-- Sanity check of the lifecycle model against the behaviour the code does get right:
leaving camera mode by an explicit `viewMode` change re-runs the effect, whose review
branch calls `stopCamera` with the fresh render's stream, so that exit path does
release the feed. -/
theorem camRun_viewMode_change_releases :
    camRun [.mount, .streamResolved 7, .setViewMode false] =
      { cameraMode := false, stream := none, cleanupStream := some (some 7),
        acquired := [7], released := [7] } := by
  rfl
